import Mathlib

/-
  Shallow embedding of the HRMS payroll / leave / attendance computation layer
  (services/hr-operations-service).  Timestamps are modelled as integer
  milliseconds since the Unix epoch, calendar days via the proleptic-Gregorian
  day count, and JavaScript number arithmetic as exact rational arithmetic.
  Database queries are modelled by passing the relevant collection as a list,
  and the ambient clock / upstream employee-service lookups as explicit
  parameters.
-/

def msPerDay : ℤ := 86400000

def msPerHour : ℤ := 3600000

/-- Day number of a proleptic-Gregorian civil date (days since 1970-01-01),
models the calendar arithmetic of JS Date / moment. -/
def daysFromCivil (y m d : ℤ) : ℤ :=
  let y2 : ℤ := if m ≤ 2 then y - 1 else y
  let doy : ℤ := (153 * (if m ≤ 2 then m + 9 else m - 3) + 2).fdiv 5 + d - 1
  365 * y2 + y2.fdiv 4 - y2.fdiv 100 + y2.fdiv 400 + doy - 719468

/-- Millisecond timestamp of midnight on a civil date. -/
def tsOfCivil (y m d : ℤ) : ℤ := msPerDay * daysFromCivil y m d

/-- Gregorian leap-year test. -/
def isLeapYear (y : ℤ) : Bool := (y % 4 == 0 && y % 100 != 0) || y % 400 == 0

/-- JS Math.round: round half toward positive infinity. -/
def jsRound (x : ℚ) : ℤ := ⌊x + 1 / 2⌋

/-- Round to two decimals the way the code does: Math.round(x * 100) / 100. -/
def roundTo2 (x : ℚ) : ℚ := (jsRound (x * 100) : ℚ) / 100

/-- Error values surfaced by the services (AppError messages). -/
inductive AppErr
  | invalidEmployee
  | employeeFetchFailed
  | payrollExists
  | onlyHRUpdate
  | cannotUpdatePaid
  | onlyHRProcess
  | onlyDraftProcess
  | onlyHRPay
  | onlyProcessedPay
  | overlappingLeave
  | ownLeaveOnly
  | onlyHRApprove
  | alreadyCheckedIn
  | noCheckInRecord
  | mustCheckInFirst
  | alreadyCheckedOut
deriving DecidableEq

/- ------------------------------------------------------------------ -/
/- Payroll: models/payroll.ts and services/payrollService.ts          -/
/- ------------------------------------------------------------------ -/

inductive PayrollStatus
  | draft
  | processed
  | paid
  | cancelled
deriving DecidableEq

structure Deductions where
  tax : ℚ
  insurance : ℚ
  retirement : ℚ
  other : ℚ
deriving DecidableEq

structure Payroll where
  employeeId : ℤ
  payPeriodStart : ℤ
  payPeriodEnd : ℤ
  baseSalary : ℚ
  overtimeHours : ℚ
  overtimeRate : ℚ
  bonuses : ℚ
  deductions : Deductions
  grossPay : ℚ
  totalDeductions : ℚ
  netPay : ℚ
  status : PayrollStatus
  paymentDate : Option ℤ
  notes : Option String
deriving DecidableEq

/-- PayrollSchema.pre(save): recompute grossPay, totalDeductions, netPay. -/
def payrollPreSave (p : Payroll) : Payroll :=
  let overtimePay := p.overtimeHours * p.overtimeRate
  let grossPay := p.baseSalary + overtimePay + p.bonuses
  let totalDeductions :=
    p.deductions.tax + p.deductions.insurance + p.deductions.retirement + p.deductions.other
  { p with
    grossPay := grossPay
    totalDeductions := totalDeductions
    netPay := grossPay - totalDeductions }

/-- Validated payroll creation payload (zod payrollSchema). -/
structure PayrollInput where
  employeeId : ℤ
  payPeriodStart : ℤ
  payPeriodEnd : ℤ
  baseSalary : ℚ
  overtimeHours : ℚ
  overtimeRate : ℚ
  bonuses : ℚ
  deductions : Deductions
  status : PayrollStatus
  paymentDate : Option ℤ
  notes : Option String
deriving DecidableEq

/-- New Payroll document built from an input payload; the derived fields are
filled in by the pre-save hook on save. -/
def payrollOfInput (i : PayrollInput) : Payroll :=
  { employeeId := i.employeeId
    payPeriodStart := i.payPeriodStart
    payPeriodEnd := i.payPeriodEnd
    baseSalary := i.baseSalary
    overtimeHours := i.overtimeHours
    overtimeRate := i.overtimeRate
    bonuses := i.bonuses
    deductions := i.deductions
    grossPay := 0
    totalDeductions := 0
    netPay := 0
    status := i.status
    paymentDate := i.paymentDate
    notes := i.notes }

/-- PayrollService.createPayroll.  The employee-service lookup is abstracted
into the employeeValid flag; the Payroll collection is the list store. -/
def createPayroll (store : List Payroll) (employeeValid : Bool) (input : PayrollInput) :
    Except AppErr Payroll :=
  if employeeValid = false then .error .invalidEmployee
  else if store.any (fun q => decide (q.employeeId = input.employeeId ∧
      q.payPeriodStart = input.payPeriodStart ∧ q.payPeriodEnd = input.payPeriodEnd)) then
    .error .payrollExists
  else .ok (payrollPreSave (payrollOfInput input))

/-- Result record of PayrollService.calculateHoursWorked. -/
structure HoursData where
  totalHours : ℚ
  regularHours : ℚ
  overtimeHours : ℚ
deriving DecidableEq

inductive AttendanceStatus
  | present
  | absent
  | late
  | halfDay
  | holiday
deriving DecidableEq

/-- Attendance document (models/attendance.ts). -/
structure AttendanceRec where
  employeeId : ℤ
  date : ℤ
  checkIn : Option ℤ
  checkOut : Option ℤ
  status : AttendanceStatus
  notes : Option String
  location : Option String
  isRemote : Bool
  hoursWorked : Option ℚ
deriving DecidableEq

/-- PayrollService.calculateHoursWorked over the Attendance collection:
records of the employee whose date lies in the period and whose hoursWorked
field is present. -/
def calculateHoursWorked (attendanceStore : List AttendanceRec)
    (employeeId startTs endTs : ℤ) : HoursData :=
  let att := attendanceStore.filter (fun r => decide (r.employeeId = employeeId ∧
    startTs ≤ r.date ∧ r.date ≤ endTs ∧ r.hoursWorked ≠ none))
  let totalHours : ℚ := (att.map (fun r => r.hoursWorked.getD 0)).sum
  let workingDays : ℤ := att.length
  let regularHours : ℚ := min totalHours ((workingDays : ℚ) * 8)
  let overtimeHours : ℚ := max 0 (totalHours - regularHours)
  { totalHours := totalHours, regularHours := regularHours, overtimeHours := overtimeHours }

/-- PayrollService.calculateBaseSalary.  moment diff in days truncates toward
zero; daysInYear is decided by the leap status of the CURRENT year
(moment().isLeapYear()), passed in as nowIsLeapYear. -/
def calculateBaseSalary (annualSalary : ℚ) (startTs endTs : ℤ) (nowIsLeapYear : Bool) : ℚ :=
  let daysInPeriod : ℤ := (endTs - startTs).tdiv msPerDay + 1
  let daysInYear : ℚ := if nowIsLeapYear then 366 else 365
  annualSalary / daysInYear * (daysInPeriod : ℚ)

/-- PayrollService.calculateDeductions: fixed simplified rates. -/
def calculateDeductions (grossPay : ℚ) : Deductions :=
  { tax := grossPay * (22 / 100)
    insurance := grossPay * (5 / 100)
    retirement := grossPay * (6 / 100)
    other := 0 }

/-- PayrollService.generatePayroll.  The employee-service salary lookup is the
employeeSalary parameter (none models an upstream failure). -/
def generatePayroll (payrollStore : List Payroll) (attendanceStore : List AttendanceRec)
    (employeeSalary : Option ℚ) (nowIsLeapYear : Bool)
    (employeeId payPeriodStart payPeriodEnd : ℤ) : Except AppErr Payroll :=
  match employeeSalary with
  | none => .error .employeeFetchFailed
  | some salary =>
      let hoursData := calculateHoursWorked attendanceStore employeeId payPeriodStart payPeriodEnd
      let baseSalary := calculateBaseSalary salary payPeriodStart payPeriodEnd nowIsLeapYear
      let overtimeHours := max 0 (hoursData.totalHours - hoursData.regularHours)
      let overtimeRate := salary / 2080 * (3 / 2)
      let deductions := calculateDeductions (baseSalary + overtimeHours * overtimeRate)
      createPayroll payrollStore true
        { employeeId := employeeId
          payPeriodStart := payPeriodStart
          payPeriodEnd := payPeriodEnd
          baseSalary := baseSalary
          overtimeHours := overtimeHours
          overtimeRate := overtimeRate
          bonuses := 0
          deductions := deductions
          status := .draft
          paymentDate := none
          notes := none }

/-- Partial update payload (zod payrollUpdateSchema); none means the key is
absent from the request body. -/
structure PayrollUpdate where
  employeeId : Option ℤ
  payPeriodStart : Option ℤ
  payPeriodEnd : Option ℤ
  baseSalary : Option ℚ
  overtimeHours : Option ℚ
  overtimeRate : Option ℚ
  bonuses : Option ℚ
  deductions : Option Deductions
  status : Option PayrollStatus
  paymentDate : Option ℤ
  notes : Option String
deriving DecidableEq

/-- Object.assign(payroll, updateData): present keys overwrite. -/
def applyPayrollUpdate (p : Payroll) (u : PayrollUpdate) : Payroll :=
  { p with
    employeeId := u.employeeId.getD p.employeeId
    payPeriodStart := u.payPeriodStart.getD p.payPeriodStart
    payPeriodEnd := u.payPeriodEnd.getD p.payPeriodEnd
    baseSalary := u.baseSalary.getD p.baseSalary
    overtimeHours := u.overtimeHours.getD p.overtimeHours
    overtimeRate := u.overtimeRate.getD p.overtimeRate
    bonuses := u.bonuses.getD p.bonuses
    deductions := u.deductions.getD p.deductions
    status := u.status.getD p.status
    paymentDate := (u.paymentDate.map some).getD p.paymentDate
    notes := (u.notes.map some).getD p.notes }

/-- PayrollService.updatePayroll on an already-fetched record.  The HR
permission lookup is the isHR flag. -/
def updatePayroll (p : Payroll) (u : PayrollUpdate) (isHR : Bool) : Except AppErr Payroll :=
  if isHR = false then .error .onlyHRUpdate
  else if p.status = .paid then .error .cannotUpdatePaid
  else .ok (payrollPreSave (applyPayrollUpdate p u))

/-- PayrollService.processPayroll on an already-fetched record. -/
def processPayroll (p : Payroll) (isHR : Bool) : Except AppErr Payroll :=
  if isHR = false then .error .onlyHRProcess
  else if p.status ≠ .draft then .error .onlyDraftProcess
  else .ok (payrollPreSave { p with status := .processed })

/-- PayrollService.markPayrollAsPaid on an already-fetched record; nowTs is
the clock used when no payment date is supplied. -/
def markPayrollAsPaid (p : Payroll) (isHR : Bool) (paymentDate : Option ℤ) (nowTs : ℤ) :
    Except AppErr Payroll :=
  if isHR = false then .error .onlyHRPay
  else if p.status ≠ .processed then .error .onlyProcessedPay
  else .ok (payrollPreSave { p with status := .paid, paymentDate := some (paymentDate.getD nowTs) })

/- ------------------------------------------------------------------ -/
/- Leave: models/leaveRequest.ts and services/leaveService.ts         -/
/- ------------------------------------------------------------------ -/

inductive LeaveStatus
  | pending
  | approved
  | rejected
  | cancelled
deriving DecidableEq

inductive LeaveType
  | annual
  | sick
  | maternity
  | paternity
  | personal
  | emergency
deriving DecidableEq

/-- LeaveRequest document. -/
structure LeaveReq where
  id : ℤ
  employeeId : ℤ
  leaveType : LeaveType
  startDate : ℤ
  endDate : ℤ
  reason : String
  status : LeaveStatus
  approverId : Option ℤ
  approverComments : Option String
  attachments : List String
  daysRequested : ℤ
deriving DecidableEq

/-- LeaveRequestSchema.pre(save) day count:
Math.ceil(|endDate - startDate| / 86400000) + 1. -/
def leaveDaysRequested (startDate endDate : ℤ) : ℤ :=
  ⌈((|endDate - startDate| : ℤ) : ℚ) / ((1000 * 60 * 60 * 24 : ℤ) : ℚ)⌉ + 1

/-- LeaveRequestSchema.pre(save): recompute daysRequested when the dates were
modified (always the case for a newly created document). -/
def leaveRequestPreSave (datesModified : Bool) (r : LeaveReq) : LeaveReq :=
  if datesModified then { r with daysRequested := leaveDaysRequested r.startDate r.endDate }
  else r

/-- Validated leave-request creation payload (zod leaveRequestSchema); the
employeeId field of the body is overwritten by the authenticated caller in
createLeaveRequest, so it is not modelled. -/
structure LeaveInput where
  leaveType : LeaveType
  startDate : ℤ
  endDate : ℤ
  reason : String
  status : LeaveStatus
  approverId : Option ℤ
  approverComments : Option String
  attachments : List String
deriving DecidableEq

/-- The overlap predicate used by the createLeaveRequest query: an existing
pending or approved request of the same employee with
existing.start ≤ new.end and existing.end ≥ new.start. -/
def overlapsNewLeave (employeeId newStart newEnd : ℤ) (r : LeaveReq) : Prop :=
  r.employeeId = employeeId ∧ (r.status = .pending ∨ r.status = .approved) ∧
    r.startDate ≤ newEnd ∧ r.endDate ≥ newStart

instance (employeeId newStart newEnd : ℤ) (r : LeaveReq) :
    Decidable (overlapsNewLeave employeeId newStart newEnd r) := by
  unfold overlapsNewLeave; infer_instance

/-- LeaveService.createLeaveRequest.  The employee-service lookup is the
employeeValid flag; newId is the id the store assigns to the new document.
Returns the updated collection together with the created request. -/
def createLeaveRequest (store : List LeaveReq) (employeeValid : Bool) (newId employeeId : ℤ)
    (input : LeaveInput) : Except AppErr (List LeaveReq × LeaveReq) :=
  if employeeValid = false then .error .invalidEmployee
  else if store.any (fun r => decide (overlapsNewLeave employeeId input.startDate input.endDate r)) then
    .error .overlappingLeave
  else
    let created := leaveRequestPreSave true
      { id := newId
        employeeId := employeeId
        leaveType := input.leaveType
        startDate := input.startDate
        endDate := input.endDate
        reason := input.reason
        status := input.status
        approverId := input.approverId
        approverComments := input.approverComments
        attachments := input.attachments
        daysRequested := 0 }
    .ok (store ++ [created], created)

/-- Partial update payload (zod leaveRequestUpdateSchema). -/
structure LeaveUpdate where
  leaveType : Option LeaveType
  startDate : Option ℤ
  endDate : Option ℤ
  reason : Option String
  status : Option LeaveStatus
  approverId : Option ℤ
  approverComments : Option String
  attachments : Option (List String)
deriving DecidableEq

/-- Object.assign(leaveRequest, updateData): present keys overwrite. -/
def applyLeaveUpdate (r : LeaveReq) (u : LeaveUpdate) : LeaveReq :=
  { r with
    leaveType := u.leaveType.getD r.leaveType
    startDate := u.startDate.getD r.startDate
    endDate := u.endDate.getD r.endDate
    reason := u.reason.getD r.reason
    status := u.status.getD r.status
    approverId := (u.approverId.map some).getD r.approverId
    approverComments := (u.approverComments.map some).getD r.approverComments
    attachments := u.attachments.getD r.attachments }

/-- LeaveService.updateLeaveRequest.  Returns ok none when no request has the
given id (the service returns null).  Note: it performs no overlap check. -/
def updateLeaveRequest (store : List LeaveReq) (requestId : ℤ) (u : LeaveUpdate)
    (userId : ℤ) (isHR : Bool) : Except AppErr (Option (List LeaveReq)) :=
  match store.find? (fun r => decide (r.id = requestId)) with
  | none => .ok none
  | some r =>
      if r.employeeId ≠ userId ∧ isHR = false then .error .ownLeaveOnly
      else if (u.status = some .approved ∨ u.status = some .rejected) ∧ isHR = false then
        .error .onlyHRApprove
      else
        let u2 := if u.status = some .approved ∨ u.status = some .rejected then
            { u with approverId := some userId } else u
        let r2 := leaveRequestPreSave (u.startDate ≠ none ∨ u.endDate ≠ none)
          (applyLeaveUpdate r u2)
        .ok (some (store.map (fun q => if q.id = requestId then r2 else q)))

/-- The filter of the getLeaveBalance query: approved requests of the employee
whose startDate is on or after Jan 1 and whose endDate is on or before Dec 31
of the current year. -/
def inBalanceYear (employeeId year : ℤ) (r : LeaveReq) : Prop :=
  r.employeeId = employeeId ∧ r.status = .approved ∧
    tsOfCivil year 1 1 ≤ r.startDate ∧ r.endDate ≤ tsOfCivil year 12 31

instance (employeeId year : ℤ) (r : LeaveReq) : Decidable (inBalanceYear employeeId year r) := by
  unfold inBalanceYear; infer_instance

/-- Days of approved leave of one type used in the current year, as summed by
the reduce in getLeaveBalance. -/
def usedDays (store : List LeaveReq) (employeeId year : ℤ) (t : LeaveType) : ℤ :=
  (((store.filter (fun r => decide (inBalanceYear employeeId year r))).filter
      (fun r => decide (r.leaveType = t))).map (fun r => r.daysRequested)).sum

structure LeaveBalance where
  annual : ℤ
  sick : ℤ
  personal : ℤ
deriving DecidableEq

/-- LeaveService.getLeaveBalance (the three remaining-balance fields); the
current year is the year parameter. -/
def getLeaveBalance (store : List LeaveReq) (employeeId year : ℤ) : LeaveBalance :=
  { annual := 21 - usedDays store employeeId year .annual
    sick := 10 - usedDays store employeeId year .sick
    personal := 5 - usedDays store employeeId year .personal }

/- ------------------------------------------------------------------ -/
/- Attendance: models/attendance.ts and services/attendanceService.ts -/
/- ------------------------------------------------------------------ -/

/-- AttendanceSchema.pre(save): when both checkIn and checkOut are present,
hoursWorked := Math.round(((checkOut - checkIn) / 3600000) * 100) / 100. -/
def attendancePreSave (r : AttendanceRec) : AttendanceRec :=
  match r.checkIn, r.checkOut with
  | some ci, some co =>
      let hw := roundTo2 (((co - ci : ℤ) : ℚ) / ((1000 * 60 * 60 : ℤ) : ℚ))
      { r with hoursWorked := some hw }
  | _, _ => r

/-- The findOne for the attendance record of an employee on a given day. -/
def findAttendance (store : List AttendanceRec) (employeeId todayTs : ℤ) :
    Option AttendanceRec :=
  store.find? (fun r => decide (r.employeeId = employeeId ∧ r.date = todayTs))

/-- AttendanceService.checkIn.  todayTs is the midnight timestamp of the
current day, nowTs the current time.  Returns the saved record. -/
def checkIn (store : List AttendanceRec) (employeeId todayTs nowTs : ℤ)
    (location : Option String) (isRemote : Bool) : Except AppErr AttendanceRec :=
  let existing := findAttendance store employeeId todayTs
  match existing with
  | some r =>
      if r.checkIn ≠ none then .error .alreadyCheckedIn
      else .ok (attendancePreSave
        { r with
          employeeId := employeeId
          date := todayTs
          checkIn := some nowTs
          status := if todayTs + 9 * msPerHour < nowTs then .late else .present
          location := location
          isRemote := isRemote })
  | none =>
      .ok (attendancePreSave
        { employeeId := employeeId
          date := todayTs
          checkIn := some nowTs
          checkOut := none
          status := if todayTs + 9 * msPerHour < nowTs then .late else .present
          notes := none
          location := location
          isRemote := isRemote
          hoursWorked := none })

/-- AttendanceService.checkOut on the record found for the current day. -/
def checkOut (store : List AttendanceRec) (employeeId todayTs nowTs : ℤ) :
    Except AppErr AttendanceRec :=
  match findAttendance store employeeId todayTs with
  | none => .error .noCheckInRecord
  | some r =>
      if r.checkIn = none then .error .mustCheckInFirst
      else if r.checkOut ≠ none then .error .alreadyCheckedOut
      else .ok (attendancePreSave { r with checkOut := some nowTs })

/- ------------------------------------------------------------------ -/
/- Spec-side restatements (for refinement comparison) and invariants  -/
/- ------------------------------------------------------------------ -/

/-- The payroll save invariant asserted by the spec: derived pay fields agree
with the component fields. -/
def payrollSaveInvariant (p : Payroll) : Prop :=
  p.grossPay = p.baseSalary + p.overtimeHours * p.overtimeRate + p.bonuses ∧
  p.totalDeductions =
    p.deductions.tax + p.deductions.insurance + p.deductions.retirement + p.deductions.other ∧
  p.netPay = p.grossPay - p.totalDeductions

/-- The spec reading of the base-salary rule, with daysInYear leap-aware for
the year containing the pay period itself (stated over civil dates). -/
def specBaseSalaryPeriodYear (annualSalary : ℚ) (sy sm sd ey em ed : ℤ) : ℚ :=
  let daysInPeriod : ℤ := daysFromCivil ey em ed - daysFromCivil sy sm sd + 1
  let daysInYear : ℚ := if isLeapYear sy then 366 else 365
  annualSalary / daysInYear * (daysInPeriod : ℚ)

/-- The attendance records C3 describes: records of the employee inside the
pay period that carry an hoursWorked value. -/
def specPeriodAttendance (store : List AttendanceRec) (employeeId startTs endTs : ℤ) :
    List AttendanceRec :=
  store.filter (fun r => decide (r.employeeId = employeeId ∧
    startTs ≤ r.date ∧ r.date ≤ endTs ∧ r.hoursWorked ≠ none))

/-- Total hours worked in the period, as C3 words it. -/
def specTotalHours (store : List AttendanceRec) (employeeId startTs endTs : ℤ) : ℚ :=
  ((specPeriodAttendance store employeeId startTs endTs).map (fun r => r.hoursWorked.getD 0)).sum

/-- Regular hours in the period, as C3 words it: min(totalHours, workingDays x 8). -/
def specRegularHours (store : List AttendanceRec) (employeeId startTs endTs : ℤ) : ℚ :=
  min (specTotalHours store employeeId startTs endTs)
    (((specPeriodAttendance store employeeId startTs endTs).length : ℚ) * 8)

/-- Days of approved leave used, as C7 words it: one pass over the store. -/
def specLeaveUsed (store : List LeaveReq) (employeeId year : ℤ) (t : LeaveType) : ℤ :=
  ((store.filter (fun r => decide (r.employeeId = employeeId ∧ r.status = .approved ∧
      r.leaveType = t ∧ tsOfCivil year 1 1 ≤ r.startDate ∧
      r.endDate ≤ tsOfCivil year 12 31))).map (fun r => r.daysRequested)).sum

/- ------------------------------------------------------------------ -/
/- Concrete sample data for witnesses and counterexamples             -/
/- ------------------------------------------------------------------ -/

def sampleDeductions : Deductions := { tax := 100, insurance := 20, retirement := 30, other := 5 }

def samplePayrollInput : PayrollInput :=
  { employeeId := 1
    payPeriodStart := 0
    payPeriodEnd := 14 * msPerDay
    baseSalary := 3000
    overtimeHours := 2
    overtimeRate := 50
    bonuses := 10
    deductions := sampleDeductions
    status := .draft
    paymentDate := none
    notes := none }

def samplePayroll : Payroll := payrollPreSave (payrollOfInput samplePayrollInput)

/-- An update payload that only sets status, to paid. -/
def jumpUpdate : PayrollUpdate :=
  { employeeId := none
    payPeriodStart := none
    payPeriodEnd := none
    baseSalary := none
    overtimeHours := none
    overtimeRate := none
    bonuses := none
    deductions := none
    status := some .paid
    paymentDate := none
    notes := none }

/-- The payroll generatePayroll builds for a 15-day period with no attendance
(employee salary 75000, current year not leap). -/
def sampleGeneratedPayroll : Payroll :=
  payrollPreSave (payrollOfInput
    { employeeId := 1
      payPeriodStart := 0
      payPeriodEnd := 14 * msPerDay
      baseSalary := calculateBaseSalary 75000 0 (14 * msPerDay) false
      overtimeHours := max 0 ((calculateHoursWorked [] 1 0 (14 * msPerDay)).totalHours -
        (calculateHoursWorked [] 1 0 (14 * msPerDay)).regularHours)
      overtimeRate := 75000 / 2080 * (3 / 2)
      bonuses := 0
      deductions := calculateDeductions (calculateBaseSalary 75000 0 (14 * msPerDay) false +
        max 0 ((calculateHoursWorked [] 1 0 (14 * msPerDay)).totalHours -
          (calculateHoursWorked [] 1 0 (14 * msPerDay)).regularHours) *
          (75000 / 2080 * (3 / 2)))
      status := .draft
      paymentDate := none
      notes := none })

def attRec1 : AttendanceRec :=
  { employeeId := 1
    date := 2 * msPerDay
    checkIn := none
    checkOut := none
    status := .present
    notes := none
    location := none
    isRemote := false
    hoursWorked := some 10 }

def attRec2 : AttendanceRec :=
  { employeeId := 1
    date := 3 * msPerDay
    checkIn := none
    checkOut := none
    status := .present
    notes := none
    location := none
    isRemote := false
    hoursWorked := some 9 }

/-- The payroll generatePayroll builds over attendance [attRec1, attRec2]. -/
def sampleGeneratedPayroll2 : Payroll :=
  payrollPreSave (payrollOfInput
    { employeeId := 1
      payPeriodStart := 0
      payPeriodEnd := 14 * msPerDay
      baseSalary := calculateBaseSalary 75000 0 (14 * msPerDay) false
      overtimeHours := max 0 ((calculateHoursWorked [attRec1, attRec2] 1 0 (14 * msPerDay)).totalHours -
        (calculateHoursWorked [attRec1, attRec2] 1 0 (14 * msPerDay)).regularHours)
      overtimeRate := 75000 / 2080 * (3 / 2)
      bonuses := 0
      deductions := calculateDeductions (calculateBaseSalary 75000 0 (14 * msPerDay) false +
        max 0 ((calculateHoursWorked [attRec1, attRec2] 1 0 (14 * msPerDay)).totalHours -
          (calculateHoursWorked [attRec1, attRec2] 1 0 (14 * msPerDay)).regularHours) *
          (75000 / 2080 * (3 / 2)))
      status := .draft
      paymentDate := none
      notes := none })

def sampleLeaveReq : LeaveReq :=
  { id := 7
    employeeId := 1
    leaveType := .annual
    startDate := 1 * msPerDay
    endDate := 3 * msPerDay
    reason := "short family trip"
    status := .pending
    approverId := none
    approverComments := none
    attachments := []
    daysRequested := 0 }

def leaveA : LeaveReq :=
  { id := 1
    employeeId := 1
    leaveType := .annual
    startDate := 10 * msPerDay
    endDate := 12 * msPerDay
    reason := "family vacation"
    status := .approved
    approverId := some 2
    approverComments := none
    attachments := []
    daysRequested := 3 }

def leaveB : LeaveReq :=
  { id := 2
    employeeId := 1
    leaveType := .sick
    startDate := 20 * msPerDay
    endDate := 22 * msPerDay
    reason := "routine medical care"
    status := .pending
    approverId := none
    approverComments := none
    attachments := []
    daysRequested := 3 }

/-- An owner update that moves leaveB onto dates overlapping leaveA. -/
def moveUpdate : LeaveUpdate :=
  { leaveType := none
    startDate := some (11 * msPerDay)
    endDate := some (13 * msPerDay)
    reason := none
    status := none
    approverId := none
    approverComments := none
    attachments := none }

def leaveB2 : LeaveReq := leaveRequestPreSave true (applyLeaveUpdate leaveB moveUpdate)

/-- A creation payload overlapping leaveA. -/
def overlapInput : LeaveInput :=
  { leaveType := .annual
    startDate := 11 * msPerDay
    endDate := 13 * msPerDay
    reason := "second family trip"
    status := .pending
    approverId := none
    approverComments := none
    attachments := [] }

/-- An approved request spanning the 2025 to 2026 year boundary. -/
def spanLeave : LeaveReq :=
  { id := 3
    employeeId := 1
    leaveType := .annual
    startDate := tsOfCivil 2025 12 30
    endDate := tsOfCivil 2026 1 2
    reason := "new year holidays"
    status := .approved
    approverId := some 2
    approverComments := none
    attachments := []
    daysRequested := 4 }

def nineFifteen : ℤ := 9 * msPerHour + 15 * 60000

/-- The record checkIn saves at 09:15 on an empty store. -/
def sampleCheckInRec : AttendanceRec :=
  { employeeId := 1
    date := 0
    checkIn := some nineFifteen
    checkOut := none
    status := if (0 : ℤ) + 9 * msPerHour < nineFifteen then .late else .present
    notes := none
    location := none
    isRemote := false
    hoursWorked := none }

/-- A checked-in record awaiting checkout (9:00 check-in). -/
def attOpenRec : AttendanceRec :=
  { employeeId := 1
    date := 0
    checkIn := some (9 * msPerHour)
    checkOut := none
    status := .present
    notes := none
    location := none
    isRemote := false
    hoursWorked := none }

def halfPastFive : ℤ := 17 * msPerHour + 30 * 60000

/- ------------------------------------------------------------------ -/
/- Helper lemmas                                                      -/
/- ------------------------------------------------------------------ -/

lemma payrollPreSave_invariant (q : Payroll) : payrollSaveInvariant (payrollPreSave q) := by
  refine ⟨rfl, rfl, rfl⟩

lemma createPayroll_ok_shape (store : List Payroll) (v : Bool) (i : PayrollInput) (p : Payroll)
    (h : createPayroll store v i = .ok p) : p = payrollPreSave (payrollOfInput i) := by
  unfold createPayroll at h
  split at h
  · exact absurd h (by simp)
  · split at h
    · exact absurd h (by simp)
    · simpa [eq_comm] using h

lemma generatePayroll_ok_shape (ps : List Payroll) (as : List AttendanceRec) (salary : ℚ)
    (leap : Bool) (eid s e : ℤ) (p : Payroll)
    (h : generatePayroll ps as (some salary) leap eid s e = .ok p) :
    p = payrollPreSave (payrollOfInput
      { employeeId := eid
        payPeriodStart := s
        payPeriodEnd := e
        baseSalary := calculateBaseSalary salary s e leap
        overtimeHours := max 0 ((calculateHoursWorked as eid s e).totalHours -
          (calculateHoursWorked as eid s e).regularHours)
        overtimeRate := salary / 2080 * (3 / 2)
        bonuses := 0
        deductions := calculateDeductions (calculateBaseSalary salary s e leap +
          max 0 ((calculateHoursWorked as eid s e).totalHours -
            (calculateHoursWorked as eid s e).regularHours) * (salary / 2080 * (3 / 2)))
        status := .draft
        paymentDate := none
        notes := none }) := by
  unfold generatePayroll at h
  exact createPayroll_ok_shape _ _ _ _ h

/- ------------------------------------------------------------------ -/
/- Claim theorems                                                     -/
/- ------------------------------------------------------------------ -/

/-- C1: every payroll record, at the moment it is saved by createPayroll,
generatePayroll, updatePayroll, processPayroll or markPayrollAsPaid, satisfies
grossPay = baseSalary + overtimeHours * overtimeRate + bonuses,
totalDeductions = tax + insurance + retirement + other, and
netPay = grossPay - totalDeductions. -/
theorem claim_C1 :
    (∀ store v i p, createPayroll store v i = .ok p → payrollSaveInvariant p) ∧
    (∀ ps as sal leap eid s e p, generatePayroll ps as sal leap eid s e = .ok p →
      payrollSaveInvariant p) ∧
    (∀ q u hr p, updatePayroll q u hr = .ok p → payrollSaveInvariant p) ∧
    (∀ q hr p, processPayroll q hr = .ok p → payrollSaveInvariant p) ∧
    (∀ q hr pd now p, markPayrollAsPaid q hr pd now = .ok p → payrollSaveInvariant p) := by
  have hcreate : ∀ store v i p, createPayroll store v i = .ok p → payrollSaveInvariant p := by
    intro store v i p h
    rw [createPayroll_ok_shape store v i p h]
    exact payrollPreSave_invariant _
  refine ⟨hcreate, ?_, ?_, ?_, ?_⟩
  · intro ps as sal leap eid s e p h
    match sal with
    | none => exact absurd h (by simp [generatePayroll])
    | some salary =>
        unfold generatePayroll at h
        exact hcreate _ _ _ _ h
  · intro q u hr p h
    unfold updatePayroll at h
    split at h
    · exact absurd h (by simp)
    · split at h
      · exact absurd h (by simp)
      · rw [show p = payrollPreSave (applyPayrollUpdate q u) by simpa [eq_comm] using h]
        exact payrollPreSave_invariant _
  · intro q hr p h
    unfold processPayroll at h
    split at h
    · exact absurd h (by simp)
    · split at h
      · exact absurd h (by simp)
      · rw [show p = payrollPreSave { q with status := .processed } by simpa [eq_comm] using h]
        exact payrollPreSave_invariant _
  · intro q hr pd now p h
    unfold markPayrollAsPaid at h
    split at h
    · exact absurd h (by simp)
    · split at h
      · exact absurd h (by simp)
      · have hp : p = payrollPreSave { q with status := .paid, paymentDate := some (pd.getD now) } := by
          simpa [eq_comm] using h
        rw [hp]
        exact payrollPreSave_invariant _

/-- Witness for C1: the concrete payroll saved by createPayroll on an empty
store satisfies the invariant. -/
theorem claim_C1_witness : payrollSaveInvariant samplePayroll :=
  claim_C1.1 [] true samplePayrollInput samplePayroll
    (by simp [createPayroll, samplePayroll])

/-- C5: on a save that (re)computes the dates, daysRequested equals
ceil(|endDate - startDate| / msPerDay) + 1, which for day-aligned dates with
start at or before end is exactly the inclusive day count. -/
theorem claim_C5 (r : LeaveReq) :
    (leaveRequestPreSave true r).daysRequested =
      ⌈((|r.endDate - r.startDate| : ℤ) : ℚ) / ((1000 * 60 * 60 * 24 : ℤ) : ℚ)⌉ + 1 ∧
    (∀ a b : ℤ, r.startDate = a * msPerDay → r.endDate = b * msPerDay → a ≤ b →
      (leaveRequestPreSave true r).daysRequested = b - a + 1) := by
  constructor
  · rfl
  · intro a b hs he hab
    have habs : |r.endDate - r.startDate| = (b - a) * msPerDay := by
      rw [hs, he, ← sub_mul]
      exact abs_of_nonneg (mul_nonneg (by omega) (by norm_num [msPerDay]))
    simp only [leaveRequestPreSave, if_true, leaveDaysRequested, habs]
    have hcast : (((b - a) * msPerDay : ℤ) : ℚ) / ((1000 * 60 * 60 * 24 : ℤ) : ℚ) =
        ((b - a : ℤ) : ℚ) := by
      rw [show ((1000 * 60 * 60 * 24 : ℤ) : ℚ) = ((msPerDay : ℤ) : ℚ) by norm_num [msPerDay]]
      push_cast
      rw [mul_div_assoc, div_self (by norm_num [msPerDay]), mul_one]
    rw [hcast, Int.ceil_intCast]

/-- Witness for C5: a request from day 1 to day 3 yields 3 requested days. -/
theorem claim_C5_witness : (leaveRequestPreSave true sampleLeaveReq).daysRequested = 3 - 1 + 1 :=
  (claim_C5 sampleLeaveReq).2 1 3 rfl rfl (by norm_num)

/-- C2 counterexample: for a 15-day period lying inside the leap year 2024,
computed while the current year is a non-leap year (nowIsLeapYear = false),
the code divides the annual salary by 365 although the claim (leap-awareness
of the year containing the period) requires 366. -/
theorem claim_C2_counterexample :
    calculateBaseSalary 75000 (tsOfCivil 2024 1 1) (tsOfCivil 2024 1 15) false ≠
      specBaseSalaryPeriodYear 75000 2024 1 1 2024 1 15 ∧
    calculateBaseSalary 75000 (tsOfCivil 2024 1 1) (tsOfCivil 2024 1 15) false =
      75000 / 365 * 15 ∧
    specBaseSalaryPeriodYear 75000 2024 1 1 2024 1 15 = 75000 / 366 * 15 := by
  have hdays : (tsOfCivil 2024 1 15 - tsOfCivil 2024 1 1).tdiv msPerDay + 1 = 15 := by decide
  have hspecDays : daysFromCivil 2024 1 15 - daysFromCivil 2024 1 1 + 1 = 15 := by decide
  have hleap : isLeapYear 2024 = true := by decide
  have h1 : calculateBaseSalary 75000 (tsOfCivil 2024 1 1) (tsOfCivil 2024 1 15) false =
      75000 / 365 * 15 := by
    simp only [calculateBaseSalary, hdays]
    norm_num
  have h2 : specBaseSalaryPeriodYear 75000 2024 1 1 2024 1 15 = 75000 / 366 * 15 := by
    simp only [specBaseSalaryPeriodYear, hspecDays, hleap]
    norm_num
  refine ⟨?_, h1, h2⟩
  rw [h1, h2]
  norm_num

/-- C2 amended: the baseSalary produced by generatePayroll equals
annualSalary / daysInYear x inclusive day count of the period, where
daysInYear is 366 or 365 according to the leap status of the CURRENT year at
computation time (moment().isLeapYear()), not the year containing the period;
for day-aligned period bounds the day count is inclusive, and the spec
example 75000 over a 15-day period evaluates to 225000/73 (about 3082.19)
when the current year is not a leap year. -/
theorem claim_C2_amended :
    (∀ ps as salary leap eid s e p, generatePayroll ps as (some salary) leap eid s e = .ok p →
      p.baseSalary = calculateBaseSalary salary s e leap) ∧
    (∀ (salary : ℚ) (leap : Bool) (a b : ℤ),
      calculateBaseSalary salary (a * msPerDay) (b * msPerDay) leap =
        salary / (if leap then 366 else 365) * ((b - a + 1 : ℤ) : ℚ)) ∧
    calculateBaseSalary 75000 0 (14 * msPerDay) false = 225000 / 73 := by
  refine ⟨?_, ?_, ?_⟩
  · intro ps as salary leap eid s e p h
    rw [generatePayroll_ok_shape ps as salary leap eid s e p h]
    rfl
  · intro salary leap a b
    have hdiv : (b * msPerDay - a * msPerDay).tdiv msPerDay = b - a := by
      rw [← sub_mul]
      exact Int.mul_tdiv_cancel _ (by norm_num [msPerDay])
    simp only [calculateBaseSalary, hdiv]
  · have hdiv : ((14 * msPerDay : ℤ) - 0).tdiv msPerDay + 1 = 15 := by decide
    simp only [calculateBaseSalary, hdiv]
    norm_num

/-- Witness for C2 amended: the generatePayroll run over an empty store with
salary 75000 and a 15-day period produces exactly calculateBaseSalary. -/
theorem claim_C2_amended_witness :
    sampleGeneratedPayroll.baseSalary = calculateBaseSalary 75000 0 (14 * msPerDay) false :=
  claim_C2_amended.1 [] [] 75000 false 1 0 (14 * msPerDay) sampleGeneratedPayroll
    (by simp [generatePayroll, createPayroll, sampleGeneratedPayroll])

/-- C3: on every successful generatePayroll, overtimeHours =
max(0, totalHours - regularHours) with totalHours the sum of hoursWorked over
the employee's attendance records in the period that have hoursWorked and
regularHours = min(totalHours, workingDays x 8) for workingDays the count of
those records; overtimeRate = (annualSalary / 2080) x 1.5; and the deductions
are 22 percent, 5 percent, 6 percent of (baseSalary + overtime pay), other 0. -/
theorem claim_C3 (ps : List Payroll) (as : List AttendanceRec) (salary : ℚ) (leap : Bool)
    (eid s e : ℤ) (p : Payroll)
    (h : generatePayroll ps as (some salary) leap eid s e = .ok p) :
    p.overtimeHours = max 0 (specTotalHours as eid s e -
      min (specTotalHours as eid s e) (((specPeriodAttendance as eid s e).length : ℚ) * 8)) ∧
    p.overtimeRate = salary / 2080 * (3 / 2) ∧
    p.deductions.tax = (p.baseSalary + p.overtimeHours * p.overtimeRate) * (22 / 100) ∧
    p.deductions.insurance = (p.baseSalary + p.overtimeHours * p.overtimeRate) * (5 / 100) ∧
    p.deductions.retirement = (p.baseSalary + p.overtimeHours * p.overtimeRate) * (6 / 100) ∧
    p.deductions.other = 0 := by
  rw [generatePayroll_ok_shape ps as salary leap eid s e p h]
  refine ⟨?_, rfl, rfl, rfl, rfl, rfl⟩
  show max 0 ((calculateHoursWorked as eid s e).totalHours -
    (calculateHoursWorked as eid s e).regularHours) = _
  simp only [calculateHoursWorked, specTotalHours, specPeriodAttendance]
  push_cast
  rfl

/-- Witness for C3: generatePayroll over two attendance records of 10 and 9
hours produces the record sampleGeneratedPayroll2, to which C3 applies. -/
theorem claim_C3_witness :
    sampleGeneratedPayroll2.overtimeRate = 75000 / 2080 * (3 / 2) ∧
    sampleGeneratedPayroll2.deductions.other = 0 :=
  have h := claim_C3 [] [attRec1, attRec2] 75000 false 1 0 (14 * msPerDay)
    sampleGeneratedPayroll2
    (by simp [generatePayroll, createPayroll, sampleGeneratedPayroll2])
  ⟨h.2.1, h.2.2.2.2.2⟩

/-- C4 counterexample: updatePayroll lets an HR caller set the status of a
draft record directly to paid, skipping processed, so the status is not
confined to the chain draft, processed, paid. -/
theorem claim_C4_counterexample :
    samplePayroll.status = PayrollStatus.draft ∧
    updatePayroll samplePayroll jumpUpdate true =
      .ok (payrollPreSave { samplePayroll with status := PayrollStatus.paid }) ∧
    (payrollPreSave { samplePayroll with status := PayrollStatus.paid }).status =
      PayrollStatus.paid := by
  refine ⟨by simp [samplePayroll, payrollPreSave, payrollOfInput, samplePayrollInput], ?_, rfl⟩
  have hstat : samplePayroll.status = PayrollStatus.draft := by
    simp [samplePayroll, payrollPreSave, payrollOfInput, samplePayrollInput]
  simp [updatePayroll, hstat, applyPayrollUpdate, jumpUpdate]

/-- C4 amended: updatePayroll, processPayroll and markPayrollAsPaid succeed
only for an HR-privileged caller; processPayroll transitions exactly draft to
processed and markPayrollAsPaid exactly processed to paid; and no operation
modifies a record whose status is paid.  But updatePayroll may set the status
of a non-paid record to an arbitrary schema value (for instance directly from
draft to paid, or to cancelled), so the status is not restricted to moving
along draft, processed, paid. -/
theorem claim_C4_amended :
    (∀ p u hr q, updatePayroll p u hr = .ok q → hr = true ∧ p.status ≠ .paid) ∧
    (∀ p hr q, processPayroll p hr = .ok q →
      hr = true ∧ p.status = .draft ∧ q.status = .processed) ∧
    (∀ p hr pd now q, markPayrollAsPaid p hr pd now = .ok q →
      hr = true ∧ p.status = .processed ∧ q.status = .paid) ∧
    (∀ p u hr, p.status = .paid → ∃ err, updatePayroll p u hr = .error err) ∧
    (∀ p hr, p.status = .paid → ∃ err, processPayroll p hr = .error err) ∧
    (∀ p hr pd now, p.status = .paid → ∃ err, markPayrollAsPaid p hr pd now = .error err) := by
  refine ⟨?_, ?_, ?_, ?_, ?_, ?_⟩
  · intro p u hr q h
    unfold updatePayroll at h
    split at h
    · exact absurd h (by simp)
    · split at h
      · exact absurd h (by simp)
      · constructor
        · rename_i h1 _
          simpa using h1
        · rename_i h2
          simpa using h2
  · intro p hr q h
    unfold processPayroll at h
    split at h
    · exact absurd h (by simp)
    · split at h
      · exact absurd h (by simp)
      · refine ⟨by rename_i h1 _; simpa using h1, by rename_i h2; simpa using h2, ?_⟩
        simp only [Except.ok.injEq] at h
        rw [← h]
        rfl
  · intro p hr pd now q h
    unfold markPayrollAsPaid at h
    split at h
    · exact absurd h (by simp)
    · split at h
      · exact absurd h (by simp)
      · refine ⟨by rename_i h1 _; simpa using h1, by rename_i h2; simpa using h2, ?_⟩
        simp only [Except.ok.injEq] at h
        rw [← h]
        rfl
  · intro p u hr hpaid
    unfold updatePayroll
    rcases hr with _ | _
    · exact ⟨.onlyHRUpdate, by simp⟩
    · exact ⟨.cannotUpdatePaid, by simp [hpaid]⟩
  · intro p hr hpaid
    unfold processPayroll
    rcases hr with _ | _
    · exact ⟨.onlyHRProcess, by simp⟩
    · exact ⟨.onlyDraftProcess, by simp [hpaid]⟩
  · intro p hr pd now hpaid
    unfold markPayrollAsPaid
    rcases hr with _ | _
    · exact ⟨.onlyHRPay, by simp⟩
    · exact ⟨.onlyProcessedPay, by simp [hpaid]⟩

/-- Witness for C4 amended: processing the sample draft payroll with HR
privilege yields a processed record. -/
theorem claim_C4_amended_witness :
    true = true ∧ samplePayroll.status = PayrollStatus.draft ∧
      (payrollPreSave { samplePayroll with status := PayrollStatus.processed }).status =
        PayrollStatus.processed :=
  claim_C4_amended.2.1 samplePayroll true
    (payrollPreSave { samplePayroll with status := PayrollStatus.processed })
    (by simp [processPayroll, samplePayroll, payrollPreSave, payrollOfInput, samplePayrollInput])

/-- C6 counterexample: updateLeaveRequest performs no overlap check.  The
owner of pending request leaveB moves it onto dates that overlap the approved
request leaveA of the same employee, and the update succeeds, leaving two
overlapping pending/approved requests in the store. -/
theorem claim_C6_counterexample :
    updateLeaveRequest [leaveA, leaveB] 2 moveUpdate 1 false = .ok (some [leaveA, leaveB2]) ∧
    overlapsNewLeave leaveB2.employeeId leaveB2.startDate leaveB2.endDate leaveA ∧
    leaveA.status = .approved ∧ leaveB2.status = .pending := by
  refine ⟨?_, ?_, rfl, rfl⟩
  · simp [updateLeaveRequest, List.find?, leaveA, leaveB, moveUpdate, leaveB2, applyLeaveUpdate]
  · refine ⟨rfl, Or.inr rfl, by decide, by decide⟩

/-- C6 amended: createLeaveRequest rejects with a conflict error exactly when
some existing pending or approved request of the same employee satisfies
existing.start ≤ new.end and existing.end ≥ new.start, so overlap-freedom is
guaranteed at creation; updateLeaveRequest performs no overlap check, so the
claimed store-wide invariant is not enforced on updates. -/
theorem claim_C6_amended (store : List LeaveReq) (newId eid : ℤ) (input : LeaveInput) :
    ((∃ r ∈ store, overlapsNewLeave eid input.startDate input.endDate r) →
      createLeaveRequest store true newId eid input = .error .overlappingLeave) ∧
    (∀ out, createLeaveRequest store true newId eid input = .ok out →
      ∀ r ∈ store, ¬ overlapsNewLeave eid input.startDate input.endDate r) := by
  have hany : (store.any (fun r =>
      decide (overlapsNewLeave eid input.startDate input.endDate r))) = true ↔
      ∃ r ∈ store, overlapsNewLeave eid input.startDate input.endDate r := by
    simp [List.any_eq_true]
  constructor
  · intro hex
    unfold createLeaveRequest
    rw [if_neg (by simp), if_pos (hany.mpr hex)]
  · intro out h r hr hov
    unfold createLeaveRequest at h
    rw [if_neg (by simp), if_pos (hany.mpr ⟨r, hr, hov⟩)] at h
    exact absurd h (by simp)

/-- Witness for C6 amended: creating a request overlapping the approved
leaveA is rejected with the conflict error. -/
theorem claim_C6_amended_witness :
    createLeaveRequest [leaveA] true 5 1 overlapInput = .error .overlappingLeave :=
  (claim_C6_amended [leaveA] 5 1 overlapInput).1 ⟨leaveA, by simp, by decide⟩

/-- C7: getLeaveBalance returns, for each of annual, sick and personal,
allocation minus the summed daysRequested of the employee's approved requests
of that type within the current year, with allocations 21, 10 and 5; an
employee with no approved requests gets exactly the allocations. -/
theorem claim_C7 (store : List LeaveReq) (eid year : ℤ) :
    (getLeaveBalance store eid year).annual = 21 - specLeaveUsed store eid year .annual ∧
    (getLeaveBalance store eid year).sick = 10 - specLeaveUsed store eid year .sick ∧
    (getLeaveBalance store eid year).personal = 5 - specLeaveUsed store eid year .personal ∧
    ((∀ r ∈ store, ¬(r.employeeId = eid ∧ r.status = .approved)) →
      getLeaveBalance store eid year = { annual := 21, sick := 10, personal := 5 }) := by
  have hfuse : ∀ t, usedDays store eid year t = specLeaveUsed store eid year t := by
    intro t
    unfold usedDays specLeaveUsed
    have hpq : store.filter (fun a => decide (a.leaveType = t) &&
        decide (inBalanceYear eid year a)) =
        store.filter (fun r => decide (r.employeeId = eid ∧ r.status = LeaveStatus.approved ∧
          r.leaveType = t ∧ tsOfCivil year 1 1 ≤ r.startDate ∧
          r.endDate ≤ tsOfCivil year 12 31)) := by
      apply List.filter_congr
      intro r _
      rw [Bool.eq_iff_iff]
      simp only [Bool.and_eq_true, decide_eq_true_eq, inBalanceYear]
      tauto
    rw [List.filter_filter, hpq]
  refine ⟨by simp [getLeaveBalance, hfuse], by simp [getLeaveBalance, hfuse],
    by simp [getLeaveBalance, hfuse], ?_⟩
  intro hnone
  have hz : ∀ t, usedDays store eid year t = 0 := by
    intro t
    unfold usedDays
    have hnil : store.filter (fun r => decide (inBalanceYear eid year r)) = [] := by
      rw [List.filter_eq_nil_iff]
      intro r hr
      simp only [decide_eq_true_eq, inBalanceYear]
      intro hcon
      exact absurd ⟨hcon.1, hcon.2.1⟩ (hnone r hr)
    rw [hnil]
    rfl
  simp [getLeaveBalance, hz]

/-- Witness for C7: a fresh employee with an empty store gets exactly the
fixed allocations 21, 10, 5. -/
theorem claim_C7_witness :
    getLeaveBalance [] 1 2025 = { annual := 21, sick := 10, personal := 5 } :=
  (claim_C7 [] 1 2025).2.2.2 (by simp)

lemma attendancePreSave_checkIn (x : AttendanceRec) :
    (attendancePreSave x).checkIn = x.checkIn := by
  unfold attendancePreSave
  split <;> rfl

lemma attendancePreSave_status (x : AttendanceRec) :
    (attendancePreSave x).status = x.status := by
  unfold attendancePreSave
  split <;> rfl

/-- C8: checkIn fails when a record with a check-in already exists for the
employee on the current day; otherwise the saved record carries the check-in
time and is late exactly when that time is after 09:00 of the day. -/
theorem claim_C8 (store : List AttendanceRec) (eid todayTs nowTs : ℤ)
    (loc : Option String) (rem : Bool) :
    (∀ r, findAttendance store eid todayTs = some r → r.checkIn ≠ none →
      checkIn store eid todayTs nowTs loc rem = .error .alreadyCheckedIn) ∧
    (∀ out, checkIn store eid todayTs nowTs loc rem = .ok out →
      out.checkIn = some nowTs ∧
      (todayTs + 9 * msPerHour < nowTs → out.status = .late) ∧
      (¬ todayTs + 9 * msPerHour < nowTs → out.status = .present)) := by
  constructor
  · intro r hfind hci
    simp [checkIn, hfind, hci]
  · intro out h
    cases hfind : findAttendance store eid todayTs with
    | some r =>
        by_cases hci : r.checkIn = none
        · simp only [checkIn, hfind, hci, ne_eq, not_true_eq_false, if_false,
            Except.ok.injEq, ite_false] at h
          rw [← h, attendancePreSave_checkIn, attendancePreSave_status]
          refine ⟨rfl, ?_, ?_⟩
          · intro hlate
            simp [hlate]
          · intro hontime
            simp [hontime]
        · simp [checkIn, hfind, hci] at h
    | none =>
        simp only [checkIn, hfind, Except.ok.injEq] at h
        rw [← h, attendancePreSave_checkIn, attendancePreSave_status]
        refine ⟨rfl, ?_, ?_⟩
        · intro hlate
          simp [hlate]
        · intro hontime
          simp [hontime]

/-- Witness for C8: a 09:15 check-in on an empty store is recorded as late. -/
theorem claim_C8_witness :
    sampleCheckInRec.checkIn = some nineFifteen ∧
      sampleCheckInRec.status = AttendanceStatus.late := by
  have h := (claim_C8 [] 1 0 nineFifteen none false).2 sampleCheckInRec
    (by simp [checkIn, findAttendance, sampleCheckInRec, attendancePreSave])
  exact ⟨h.1, h.2.1 (by norm_num [msPerHour, nineFifteen])⟩

/-- C9: checkOut succeeds only when a record with a check-in and no checkout
exists for the employee today, erring otherwise, and the saved record's
hoursWorked is round((checkOut - checkIn) / 3600000, 2). -/
theorem claim_C9 (store : List AttendanceRec) (eid todayTs nowTs : ℤ) :
    (∀ out, checkOut store eid todayTs nowTs = .ok out →
      ∃ r ci, findAttendance store eid todayTs = some r ∧ r.checkIn = some ci ∧
        r.checkOut = none ∧
        out.hoursWorked =
          some (roundTo2 (((nowTs - ci : ℤ) : ℚ) / ((1000 * 60 * 60 : ℤ) : ℚ)))) ∧
    (findAttendance store eid todayTs = none →
      checkOut store eid todayTs nowTs = .error .noCheckInRecord) ∧
    (∀ r, findAttendance store eid todayTs = some r → r.checkIn = none →
      checkOut store eid todayTs nowTs = .error .mustCheckInFirst) ∧
    (∀ r, findAttendance store eid todayTs = some r → r.checkIn ≠ none → r.checkOut ≠ none →
      checkOut store eid todayTs nowTs = .error .alreadyCheckedOut) := by
  refine ⟨?_, ?_, ?_, ?_⟩
  · intro out h
    cases hfind : findAttendance store eid todayTs with
    | none => simp [checkOut, hfind] at h
    | some r =>
        by_cases hci : r.checkIn = none
        · simp [checkOut, hfind, hci] at h
        · by_cases hco : r.checkOut = none
          · simp only [checkOut, hfind, hci, hco, ne_eq, not_false_eq_true, if_false,
              not_true_eq_false, ite_false, if_true, ite_true, Except.ok.injEq,
              if_neg, reduceCtorEq] at h
            rcases hci2 : r.checkIn with _ | ci
            · exact absurd hci2 hci
            · refine ⟨r, ci, rfl, hci2, hco, ?_⟩
              rw [← h]
              simp [attendancePreSave, hci2]
          · simp [checkOut, hfind, hci, hco] at h
  · intro hnone
    simp [checkOut, hnone]
  · intro r hfind hci
    simp [checkOut, hfind, hci]
  · intro r hfind hci hco
    simp [checkOut, hfind, hci, hco]

/-- Witness for C9: checking out at 17:30 after a 09:00 check-in stores
hoursWorked for the 8.5 elapsed hours. -/
theorem claim_C9_witness :
    ∃ r ci, findAttendance [attOpenRec] 1 0 = some r ∧ r.checkIn = some ci ∧
      r.checkOut = none ∧
      (attendancePreSave { attOpenRec with checkOut := some halfPastFive }).hoursWorked =
        some (roundTo2 (((halfPastFive - ci : ℤ) : ℚ) / ((1000 * 60 * 60 : ℤ) : ℚ))) :=
  (claim_C9 [attOpenRec] 1 0 halfPastFive).1
    (attendancePreSave { attOpenRec with checkOut := some halfPastFive })
    (by simp [checkOut, findAttendance, attOpenRec])

lemma daysFromCivil_dec31_add_one (y : ℤ) :
    daysFromCivil y 12 31 + 1 = daysFromCivil (y + 1) 1 1 := by
  have h1 : ((1379 : ℤ)).fdiv 5 = 275 := by decide
  have h2 : ((1532 : ℤ)).fdiv 5 = 306 := by decide
  simp only [daysFromCivil]
  norm_num [h1, h2]
  ring

lemma tsOfCivil_dec31_lt_jan1 (y : ℤ) : tsOfCivil y 12 31 < tsOfCivil (y + 1) 1 1 := by
  unfold tsOfCivil
  rw [← daysFromCivil_dec31_add_one y]
  have hm : (0 : ℤ) < msPerDay := by norm_num [msPerDay]
  have hd : daysFromCivil y 12 31 < daysFromCivil y 12 31 + 1 := by omega
  exact mul_lt_mul_of_pos_left hd hm

/-- C10: the getLeaveBalance query counts a request toward year y exactly when
Jan 1 of y is at or before its startDate and its endDate is at or before
Dec 31 of y; hence an approved request spanning the boundary between year y
and year y+1 is subtracted from neither balance. -/
theorem claim_C10 :
    (∀ (store : List LeaveReq) (eid year : ℤ) (r : LeaveReq),
      r ∈ store.filter (fun q => decide (inBalanceYear eid year q)) ↔
        r ∈ store ∧ r.employeeId = eid ∧ r.status = .approved ∧
          tsOfCivil year 1 1 ≤ r.startDate ∧ r.endDate ≤ tsOfCivil year 12 31) ∧
    (∀ (store : List LeaveReq) (eid year : ℤ) (r : LeaveReq),
      r.employeeId = eid → r.status = .approved →
      tsOfCivil year 1 1 ≤ r.startDate → r.startDate ≤ tsOfCivil year 12 31 →
      tsOfCivil (year + 1) 1 1 ≤ r.endDate →
      getLeaveBalance (r :: store) eid year = getLeaveBalance store eid year ∧
      getLeaveBalance (r :: store) eid (year + 1) = getLeaveBalance store eid (year + 1)) := by
  constructor
  · intro store eid year r
    simp [List.mem_filter, inBalanceYear]
  · intro store eid year r hemp hst h1 h2 h3
    have hlt : tsOfCivil year 12 31 < tsOfCivil (year + 1) 1 1 := tsOfCivil_dec31_lt_jan1 year
    have hny : ¬ inBalanceYear eid year r := by
      intro hmem
      have := hmem.2.2.2
      omega
    have hny2 : ¬ inBalanceYear eid (year + 1) r := by
      intro hmem
      have := hmem.2.2.1
      omega
    have hd1 : (decide (inBalanceYear eid year r)) = false := by simpa using hny
    have hd2 : (decide (inBalanceYear eid (year + 1) r)) = false := by simpa using hny2
    constructor
    · simp [getLeaveBalance, usedDays, List.filter_cons, hd1]
    · simp [getLeaveBalance, usedDays, List.filter_cons, hd2]

/-- Witness for C10: an approved request from 2025-12-30 to 2026-01-02 leaves
both the 2025 and the 2026 balances untouched. -/
theorem claim_C10_witness :
    getLeaveBalance [spanLeave] 1 2025 = getLeaveBalance [] 1 2025 ∧
      getLeaveBalance [spanLeave] 1 (2025 + 1) = getLeaveBalance [] 1 (2025 + 1) :=
  claim_C10.2 [] 1 2025 spanLeave rfl rfl (by decide) (by decide) (by decide)
